import Mathlib

/-!
A verification development for a small fitness-tracker program
(`homework.py`).  The program computes distance, mean speed and calories
burned for three kinds of training (running, sports walking, swimming),
renders a fixed-template report string, and dispatches raw sensor packages
to the right training class.

Python floats are embedded as rationals (`ℚ`); all the numeric literals of
the source are exactly representable, so the arithmetic agrees.  Python's
`/` and `//` raise `ZeroDivisionError` on a zero divisor, so the metric
computations are embedded as `Option ℚ`-valued functions built from
division operators that return `none` on a zero divisor and propagate the
failure, exactly as an uncaught exception propagates.
-/

/-- Python float division `a / b`: fails (raises `ZeroDivisionError`)
when `b = 0`, otherwise exact division. -/
def fdiv? (a b : ℚ) : Option ℚ :=
  if b = 0 then none else some (a / b)

/-- Python float floor division `a // b`: fails when `b = 0`, otherwise
the floor of the exact quotient (Python floors toward negative infinity,
as `Rat.floor` does). -/
def ffloordiv? (a b : ℚ) : Option ℚ :=
  if b = 0 then none else some ((⌊a / b⌋ : ℤ) : ℚ)

/-- `InfoMessage` dataclass: the report value object. -/
structure InfoMessage where
  training_type : String
  duration : ℚ
  distance : ℚ
  speed : ℚ
  calories : ℚ
deriving DecidableEq

/-- One decimal digit character, `d % 10` mapped to `'0'`–`'9'`. -/
def digitChar (d : Nat) : Char :=
  match d % 10 with
  | 0 => '0' | 1 => '1' | 2 => '2' | 3 => '3' | 4 => '4'
  | 5 => '5' | 6 => '6' | 7 => '7' | 8 => '8' | _ => '9'

/-- Exactly three digit characters: the hundreds, tens and units digits
of `k` (used for the fractional part of a 3-decimal rendering). -/
def pad3 (k : Nat) : String :=
  String.mk [digitChar (k / 100), digitChar (k / 10), digitChar k]

/-- Round `q * 1000` to an integer, ties to even: the rounding Python's
`"{:.3f}".format` applies to the decimal expansion. -/
def roundHalfEven3 (q : ℚ) : ℤ :=
  let s : ℚ := q * 1000
  let f : ℤ := ⌊s⌋
  let r : ℚ := s - (f : ℚ)
  if r < 1 / 2 then f
  else if 1 / 2 < r then f + 1
  else if f % 2 = 0 then f else f + 1

/-- Render `q` with exactly three fractional digits, as Python's
`"{:.3f}".format(q)` does. -/
def formatRat3 (q : ℚ) : String :=
  let n : ℤ := roundHalfEven3 q
  let m : Nat := n.natAbs
  (if n < 0 then "-" else "") ++ Nat.repr (m / 1000) ++ "." ++ pad3 (m % 1000)

/-- `InfoMessage.get_message`: fill the fixed `MESSAGE` template
("Тип тренировки: {}; Длительность: {:.3f} ч.; Дистанция: {:.3f} км;
Ср. скорость: {:.3f} км/ч; Потрачено ккал: {:.3f}.") with the five
fields, the four numeric ones at three fractional digits. -/
def InfoMessage.get_message (im : InfoMessage) : String :=
  "Тип тренировки: " ++ im.training_type ++
  "; Длительность: " ++ formatRat3 im.duration ++
  " ч.; Дистанция: " ++ formatRat3 im.distance ++
  " км; Ср. скорость: " ++ formatRat3 im.speed ++
  " км/ч; Потрачено ккал: " ++ formatRat3 im.calories ++ "."

/-- The English template the specification document states for the
report formatter, word for word ("Activity type: {name}; Duration:
{duration:.3f} h.; ..."), for comparison with the source's template. -/
def spec_get_message (im : InfoMessage) : String :=
  "Activity type: " ++ im.training_type ++
  "; Duration: " ++ formatRat3 im.duration ++
  " h.; Distance: " ++ formatRat3 im.distance ++
  " km; Avg. speed: " ++ formatRat3 im.speed ++
  " km/h; Calories burned: " ++ formatRat3 im.calories ++ "."

/-- `Training` dataclass: the base activity record
(`action`, `duration` in hours, `weight` in kg). -/
structure Training where
  action : ℚ
  duration : ℚ
  weight : ℚ
deriving DecidableEq

namespace Training

/-- `M_IN_KM = 1000`. -/
def M_IN_KM : ℚ := 1000

/-- Base `LEN_STEP = 0.65`. -/
def LEN_STEP : ℚ := 0.65

/-- `HOUR = 60`. -/
def HOUR : ℚ := 60

/-- `Training.get_distance`: `action * LEN_STEP / M_IN_KM`. -/
def get_distance (t : Training) : Option ℚ :=
  fdiv? (t.action * LEN_STEP) M_IN_KM

/-- `Training.get_mean_speed`: `get_distance() / duration`. -/
def get_mean_speed (t : Training) : Option ℚ := do
  let d ← t.get_distance
  fdiv? d t.duration

/-- `Training.get_spent_calories`: the body is `pass`, so the base class
supplies no value (Python returns `None`). -/
def get_spent_calories (_t : Training) : Option ℚ :=
  none

end Training

/-- `Running(Training)`. -/
structure Running extends Training
deriving DecidableEq

namespace Running

/-- `COEF_CALORIE_1 = 18`. -/
def COEF_CALORIE_1 : ℚ := 18

/-- `COEF_CALORIE_2 = 20`. -/
def COEF_CALORIE_2 : ℚ := 20

/-- `Running.get_spent_calories`:
`(COEF_CALORIE_1 * speed - COEF_CALORIE_2) * weight / M_IN_KM * duration * HOUR`. -/
def get_spent_calories (t : Running) : Option ℚ := do
  let s ← t.toTraining.get_mean_speed
  let a ← fdiv? ((COEF_CALORIE_1 * s - COEF_CALORIE_2) * t.weight) Training.M_IN_KM
  return a * t.duration * Training.HOUR

end Running

/-- `SportsWalking(Training)`: adds `height` (cm). -/
structure SportsWalking extends Training where
  height : ℚ
deriving DecidableEq

namespace SportsWalking

/-- `COEF_CALORIE_01 = 0.035`. -/
def COEF_CALORIE_01 : ℚ := 0.035

/-- `COEF_CALORIE_02 = 0.029`. -/
def COEF_CALORIE_02 : ℚ := 0.029

/-- `SportsWalking.get_spent_calories`:
`(COEF_CALORIE_01 * weight + (speed ** 2 // height) * COEF_CALORIE_02 * weight)
 * duration * HOUR`, with Python's floor division `//`. -/
def get_spent_calories (t : SportsWalking) : Option ℚ := do
  let s ← t.toTraining.get_mean_speed
  let fd ← ffloordiv? (s ^ 2) t.height
  return (COEF_CALORIE_01 * t.weight + fd * COEF_CALORIE_02 * t.weight)
    * t.duration * Training.HOUR

end SportsWalking

/-- `Swimming(Training)`: adds `length_pool` (m) and `count_pool`. -/
structure Swimming extends Training where
  length_pool : ℚ
  count_pool : ℚ
deriving DecidableEq

namespace Swimming

/-- Override `LEN_STEP = 1.38`. -/
def LEN_STEP : ℚ := 1.38

/-- `COEF_CALORIE_001 = 1.1`. -/
def COEF_CALORIE_001 : ℚ := 1.1

/-- `COEF_CALORIE_002 = 2`. -/
def COEF_CALORIE_002 : ℚ := 2

/-- `Swimming.get_mean_speed`:
`length_pool * count_pool / M_IN_KM / duration`. -/
def get_mean_speed (t : Swimming) : Option ℚ := do
  let a ← fdiv? (t.length_pool * t.count_pool) Training.M_IN_KM
  fdiv? a t.duration

/-- `Swimming.get_spent_calories`:
`(speed + COEF_CALORIE_001) * COEF_CALORIE_002 * weight`. -/
def get_spent_calories (t : Swimming) : Option ℚ := do
  let s ← t.get_mean_speed
  return (s + COEF_CALORIE_001) * COEF_CALORIE_002 * t.weight

/-- `Swimming.get_distance`: `action * LEN_STEP / M_IN_KM` with the
overridden `LEN_STEP = 1.38`. -/
def get_distance (t : Swimming) : Option ℚ :=
  fdiv? (t.action * LEN_STEP) Training.M_IN_KM

end Swimming

/-- A training instance of one of the three concrete classes, as
produced by `read_package` (dynamic dispatch is a case split here). -/
inductive AnyTraining where
  | run : Running → AnyTraining
  | wlk : SportsWalking → AnyTraining
  | swm : Swimming → AnyTraining
deriving DecidableEq

namespace AnyTraining

/-- `self.__class__.__name__` of the wrapped instance. -/
def class_name : AnyTraining → String
  | .run _ => "Running"
  | .wlk _ => "SportsWalking"
  | .swm _ => "Swimming"

/-- The `duration` field of the wrapped instance. -/
def duration : AnyTraining → ℚ
  | .run t => t.duration
  | .wlk t => t.duration
  | .swm t => t.duration

/-- Dynamic dispatch of `get_distance` (only `Swimming` overrides it). -/
def get_distance : AnyTraining → Option ℚ
  | .run t => t.toTraining.get_distance
  | .wlk t => t.toTraining.get_distance
  | .swm t => t.get_distance

/-- Dynamic dispatch of `get_mean_speed` (only `Swimming` overrides it). -/
def get_mean_speed : AnyTraining → Option ℚ
  | .run t => t.toTraining.get_mean_speed
  | .wlk t => t.toTraining.get_mean_speed
  | .swm t => t.get_mean_speed

/-- Dynamic dispatch of `get_spent_calories` (each class has its own). -/
def get_spent_calories : AnyTraining → Option ℚ
  | .run t => t.get_spent_calories
  | .wlk t => t.get_spent_calories
  | .swm t => t.get_spent_calories

/-- `Training.show_training_info`: build the `InfoMessage` from the class
name, the duration, and the three computed metrics (distance, speed,
calories, in that order). -/
def show_training_info (t : AnyTraining) : Option InfoMessage := do
  let d ← t.get_distance
  let s ← t.get_mean_speed
  let c ← t.get_spent_calories
  return ⟨t.class_name, t.duration, d, s, c⟩

end AnyTraining

/-- The two failure modes of `read_package`: an activity code outside
the dictionary (the source raises `KeyError("Workout not found")`), and
a raw-value list whose arity does not match the selected class's
constructor (Python raises `TypeError` from `cls(*data)`). -/
inductive ReadError where
  | unknownActivityError
  | invalidRecordError
deriving DecidableEq

/-- `read_package(workout_type, data)`: look `workout_type` up in
`{'SWM': Swimming, 'RUN': Running, 'WLK': SportsWalking}`, fail when it
is absent, otherwise construct the class from `data` positionally. -/
def read_package (workout_type : String) (data : List ℚ) :
    Except ReadError AnyTraining :=
  if workout_type = "SWM" then
    match data with
    | [a, d, w, lp, cp] => .ok (.swm ⟨⟨a, d, w⟩, lp, cp⟩)
    | _ => .error .invalidRecordError
  else if workout_type = "RUN" then
    match data with
    | [a, d, w] => .ok (.run ⟨⟨a, d, w⟩⟩)
    | _ => .error .invalidRecordError
  else if workout_type = "WLK" then
    match data with
    | [a, d, w, h] => .ok (.wlk ⟨⟨a, d, w⟩, h⟩)
    | _ => .error .invalidRecordError
  else
    .error .unknownActivityError

/-! ## Helper lemmas -/

/-- Number of characters after the last `'.'` of a string (the length of
its fractional-digit suffix). -/
def fracDigitCount (s : String) : Nat :=
  (s.data.reverse.takeWhile (fun c => c != '.')).length

/-- A decimal digit character is never a dot. -/
theorem digitChar_bne_dot (d : Nat) : (digitChar d != '.') = true := by
  unfold digitChar
  split <;> decide

/-- `formatRat3` always renders exactly three fractional digits. -/
theorem fracDigitCount_formatRat3 (q : ℚ) : fracDigitCount (formatRat3 q) = 3 := by
  unfold formatRat3 fracDigitCount pad3
  simp [String.data_append, List.takeWhile, digitChar_bne_dot]

/-- Any `InfoMessage` produced by `show_training_info` carries the
class name of the training it came from. -/
theorem show_info_training_type (t : AnyTraining) (im : InfoMessage)
    (h : t.show_training_info = some im) : im.training_type = t.class_name := by
  unfold AnyTraining.show_training_info at h
  cases hd : t.get_distance <;> rw [hd] at h <;> simp at h
  cases hs : t.get_mean_speed <;> rw [hs] at h <;> simp at h
  cases hc : t.get_spent_calories <;> rw [hc] at h <;> simp at h
  rw [← h]

/-- The rendered message opens with the template's label followed by the
`training_type` field. -/
theorem message_head (im : InfoMessage) :
    ∃ rest, im.get_message = "Тип тренировки: " ++ (im.training_type ++ rest) :=
  ⟨"; Длительность: " ++ (formatRat3 im.duration ++ (" ч.; Дистанция: " ++
      (formatRat3 im.distance ++ (" км; Ср. скорость: " ++ (formatRat3 im.speed ++
      (" км/ч; Потрачено ккал: " ++ (formatRat3 im.calories ++ "."))))))),
    by simp [InfoMessage.get_message, String.append_assoc]⟩

/-! ## Claim theorems -/

/-- Claim C1: for input code `"SWM"` with values `[720, 1, 80, 25, 40]`,
`read_package` returns the `Swimming` instance built directly from
`action = 720`, `duration = 1`, `weight = 80`, `length_pool = 25`,
`count_pool = 40`, whose distance is `720 * 1.38 / 1000 = 0.9936` km,
mean speed is `25 * 40 / 1000 / 1 = 1` km/h, and calories are
`(1 + 1.1) * 2 * 80 = 336`. -/
theorem swm_package_end_to_end :
    read_package "SWM" [720, 1, 80, 25, 40] = .ok (.swm ⟨⟨720, 1, 80⟩, 25, 40⟩) ∧
    Swimming.get_distance ⟨⟨720, 1, 80⟩, 25, 40⟩ = some 0.9936 ∧
    Swimming.get_mean_speed ⟨⟨720, 1, 80⟩, 25, 40⟩ = some 1 ∧
    Swimming.get_spent_calories ⟨⟨720, 1, 80⟩, 25, 40⟩ = some 336 := by
  refine ⟨rfl, ?_, ?_, ?_⟩ <;>
    norm_num [Swimming.get_distance, Swimming.get_mean_speed, Swimming.get_spent_calories,
      fdiv?, Training.M_IN_KM, Swimming.LEN_STEP, Swimming.COEF_CALORIE_001,
      Swimming.COEF_CALORIE_002]

/-- Claim C2: every `SportsWalking` (WLK) record with nonzero height and a
defined mean speed `ms` spends
`(0.035 * weight + (ms^2 floor-divided by height) * 0.029 * weight) * duration * 60`
calories, with floor division (not real division); in particular the
record `(9000, 1, 75, 180)` yields `157.5` because `⌊5.85^2 / 180⌋ = 0`. -/
theorem wlk_spent_calories_floor_formula :
    (∀ (w : SportsWalking) (ms : ℚ), w.height ≠ 0 →
      w.toTraining.get_mean_speed = some ms →
      w.get_spent_calories =
        some ((0.035 * w.weight + ((⌊ms ^ 2 / w.height⌋ : ℤ) : ℚ) * 0.029 * w.weight)
          * w.duration * 60)) ∧
    SportsWalking.get_spent_calories ⟨⟨9000, 1, 75⟩, 180⟩ = some 157.5 := by
  constructor
  · intro w ms hh hms
    simp [SportsWalking.get_spent_calories, hms, ffloordiv?, hh,
      SportsWalking.COEF_CALORIE_01, SportsWalking.COEF_CALORIE_02, Training.HOUR]
  · norm_num [SportsWalking.get_spent_calories, Training.get_mean_speed, Training.get_distance,
      fdiv?, ffloordiv?, Training.M_IN_KM, Training.LEN_STEP, Training.HOUR,
      SportsWalking.COEF_CALORIE_01, SportsWalking.COEF_CALORIE_02]

/-- Witness for C2 at the record `(9000, 1, 75, 180)`: its height is
nonzero, its mean speed is `5.85`, and the calorie formula applies. -/
theorem wlk_spent_calories_floor_formula_witness :
    (⟨⟨9000, 1, 75⟩, 180⟩ : SportsWalking).height ≠ 0 ∧
    SportsWalking.get_spent_calories ⟨⟨9000, 1, 75⟩, 180⟩ =
      some ((0.035 * 75 + ((⌊(5.85 : ℚ) ^ 2 / 180⌋ : ℤ) : ℚ) * 0.029 * 75) * 1 * 60) := by
  constructor
  · norm_num
  · exact wlk_spent_calories_floor_formula.1 ⟨⟨9000, 1, 75⟩, 180⟩ 5.85 (by norm_num)
      (by norm_num [Training.get_mean_speed, Training.get_distance, fdiv?,
        Training.M_IN_KM, Training.LEN_STEP])

/-- Claim C3: every activity code outside `{"SWM", "RUN", "WLK"}` makes
`read_package` fail with the unknown-activity error for any raw values. -/
theorem read_package_unknown_code : ∀ (code : String) (data : List ℚ),
    code ≠ "SWM" → code ≠ "RUN" → code ≠ "WLK" →
    read_package code data = .error .unknownActivityError := by
  intro code data h1 h2 h3
  simp [read_package, h1, h2, h3]

/-- Witness for C3 at code `"XYZ"`. -/
theorem read_package_unknown_code_witness :
    read_package "XYZ" [720, 1, 80] = .error .unknownActivityError :=
  read_package_unknown_code "XYZ" [720, 1, 80] (by decide) (by decide) (by decide)

/-- Claim C4: each recognized code binds the raw values positionally to
its class's field order (`action, duration, weight`, then `height` for
WLK or `length_pool, count_pool` for SWM), and any raw-value list of the
wrong length for that class fails with the invalid-record error. -/
theorem read_package_positional_and_arity :
    (∀ a d w lp cp : ℚ, read_package "SWM" [a, d, w, lp, cp] = .ok (.swm ⟨⟨a, d, w⟩, lp, cp⟩)) ∧
    (∀ a d w : ℚ, read_package "RUN" [a, d, w] = .ok (.run ⟨⟨a, d, w⟩⟩)) ∧
    (∀ a d w h : ℚ, read_package "WLK" [a, d, w, h] = .ok (.wlk ⟨⟨a, d, w⟩, h⟩)) ∧
    (∀ data : List ℚ, data.length ≠ 5 → read_package "SWM" data = .error .invalidRecordError) ∧
    (∀ data : List ℚ, data.length ≠ 3 → read_package "RUN" data = .error .invalidRecordError) ∧
    (∀ data : List ℚ, data.length ≠ 4 → read_package "WLK" data = .error .invalidRecordError) := by
  refine ⟨fun a d w lp cp => rfl, fun a d w => rfl, fun a d w h => rfl, ?_, ?_, ?_⟩ <;>
  · intro data h
    rcases data with _ | ⟨a, _ | ⟨b, _ | ⟨c, _ | ⟨e, _ | ⟨f, _ | ⟨g, t⟩⟩⟩⟩⟩⟩ <;>
      first
      | rfl
      | exact absurd rfl h

/-- Witness for C4: wrong arities for each of the three codes fail. -/
theorem read_package_positional_and_arity_witness :
    read_package "SWM" [1, 2, 3] = .error .invalidRecordError ∧
    read_package "RUN" [1, 2, 3, 4] = .error .invalidRecordError ∧
    read_package "WLK" [1] = .error .invalidRecordError :=
  ⟨read_package_positional_and_arity.2.2.2.1 [1, 2, 3] (by decide),
   read_package_positional_and_arity.2.2.2.2.1 [1, 2, 3, 4] (by decide),
   read_package_positional_and_arity.2.2.2.2.2 [1] (by decide)⟩

/-- Claim C5 counterexample: the report formatter does not produce the
English template the claim states; at a concrete report the produced
string differs from the English-template rendering. -/
theorem message_template_english_counterexample :
    InfoMessage.get_message ⟨"Swimming", 1, 0.9936, 1, 336⟩ ≠
      spec_get_message ⟨"Swimming", 1, 0.9936, 1, 336⟩ := by decide

/-- Claim C5 (amended): for every `Report` value the formatter produces
exactly the fixed-template string
"Тип тренировки: {}; Длительность: {:.3f} ч.; Дистанция: {:.3f} км;
Ср. скорость: {:.3f} км/ч; Потрачено ккал: {:.3f}." — the source's
Russian-labelled template rather than the English one the claim quotes —
with each of the four numeric fields rendered with exactly 3 fractional
digits. -/
theorem message_template_russian :
    (∀ im : InfoMessage, im.get_message =
      "Тип тренировки: " ++ im.training_type ++ "; Длительность: " ++ formatRat3 im.duration ++
      " ч.; Дистанция: " ++ formatRat3 im.distance ++ " км; Ср. скорость: " ++
      formatRat3 im.speed ++ " км/ч; Потрачено ккал: " ++ formatRat3 im.calories ++ ".") ∧
    (∀ q : ℚ, fracDigitCount (formatRat3 q) = 3) :=
  ⟨fun _ => rfl, fracDigitCount_formatRat3⟩

/-- Claim C6: every record of every class has
`get_distance = action * step_length / 1000`, where the step length is
`0.65` for `Running` and `SportsWalking` and `1.38` for `Swimming`. -/
theorem get_distance_step_length :
    (∀ r : Running, (AnyTraining.run r).get_distance = some (r.action * 0.65 / 1000)) ∧
    (∀ w : SportsWalking, (AnyTraining.wlk w).get_distance = some (w.action * 0.65 / 1000)) ∧
    (∀ s : Swimming, (AnyTraining.swm s).get_distance = some (s.action * 1.38 / 1000)) := by
  refine ⟨fun r => ?_, fun w => ?_, fun s => ?_⟩ <;>
    norm_num [AnyTraining.get_distance, Training.get_distance, Swimming.get_distance,
      fdiv?, Training.M_IN_KM, Training.LEN_STEP, Swimming.LEN_STEP]

/-- Claim C7: every `Swimming` record with nonzero duration has
`get_mean_speed = length_pool * count_pool / 1000 / duration`, and the
result depends only on `length_pool`, `count_pool` and `duration`: two
records agreeing on those three fields have the same mean speed. -/
theorem swimming_mean_speed_formula : ∀ s : Swimming, s.duration ≠ 0 →
    s.get_mean_speed = some (s.length_pool * s.count_pool / 1000 / s.duration) ∧
    (∀ t : Swimming, t.length_pool = s.length_pool → t.count_pool = s.count_pool →
      t.duration = s.duration → t.get_mean_speed = s.get_mean_speed) := by
  intro s hd
  constructor
  · norm_num [Swimming.get_mean_speed, fdiv?, Training.M_IN_KM, hd]
  · intro t h1 h2 h3
    simp [Swimming.get_mean_speed, h1, h2, h3]

/-- Witness for C7 at the sample swimming record, which also differs in
`action` from a second record with the same pool data. -/
theorem swimming_mean_speed_formula_witness :
    (⟨⟨720, 1, 80⟩, 25, 40⟩ : Swimming).duration ≠ 0 ∧
    Swimming.get_mean_speed ⟨⟨720, 1, 80⟩, 25, 40⟩ = some (25 * 40 / 1000 / 1) ∧
    Swimming.get_mean_speed ⟨⟨9999, 1, 80⟩, 25, 40⟩ =
      Swimming.get_mean_speed ⟨⟨720, 1, 80⟩, 25, 40⟩ :=
  ⟨by norm_num, (swimming_mean_speed_formula ⟨⟨720, 1, 80⟩, 25, 40⟩ (by norm_num)).1,
   (swimming_mean_speed_formula ⟨⟨720, 1, 80⟩, 25, 40⟩ (by norm_num)).2
     ⟨⟨9999, 1, 80⟩, 25, 40⟩ rfl rfl rfl⟩

/-- Claim C8: the base class supplies no calorie value (its
`get_spent_calories` body is `pass`, returning nothing), while each of
the three concrete classes computes one of its own whenever its
divisors are nonzero. -/
theorem spent_calories_base_abstract :
    (∀ t : Training, t.get_spent_calories = none) ∧
    (∀ r : Running, r.duration ≠ 0 → ∃ q, r.get_spent_calories = some q) ∧
    (∀ w : SportsWalking, w.duration ≠ 0 → w.height ≠ 0 → ∃ q, w.get_spent_calories = some q) ∧
    (∀ s : Swimming, s.duration ≠ 0 → ∃ q, s.get_spent_calories = some q) := by
  refine ⟨fun t => rfl, ?_, ?_, ?_⟩
  · intro r hd
    norm_num [Running.get_spent_calories, Training.get_mean_speed, Training.get_distance,
      fdiv?, Training.M_IN_KM, hd]
  · intro w hd hh
    norm_num [SportsWalking.get_spent_calories, Training.get_mean_speed, Training.get_distance,
      fdiv?, ffloordiv?, Training.M_IN_KM, hd, hh]
  · intro s hd
    norm_num [Swimming.get_spent_calories, Swimming.get_mean_speed, fdiv?, Training.M_IN_KM, hd]

/-- Witness for C8 at the three sample records. -/
theorem spent_calories_base_abstract_witness :
    (⟨⟨15000, 1, 75⟩⟩ : Running).duration ≠ 0 ∧
    (∃ q, Running.get_spent_calories ⟨⟨15000, 1, 75⟩⟩ = some q) ∧
    (∃ q, SportsWalking.get_spent_calories ⟨⟨9000, 1, 75⟩, 180⟩ = some q) ∧
    (∃ q, Swimming.get_spent_calories ⟨⟨720, 1, 80⟩, 25, 40⟩ = some q) :=
  ⟨by norm_num, spent_calories_base_abstract.2.1 ⟨⟨15000, 1, 75⟩⟩ (by norm_num),
   spent_calories_base_abstract.2.2.1 ⟨⟨9000, 1, 75⟩, 180⟩ (by norm_num) (by norm_num),
   spent_calories_base_abstract.2.2.2 ⟨⟨720, 1, 80⟩, 25, 40⟩ (by norm_num)⟩

/-- Claim C9: a zero duration (or a zero height for `SportsWalking`)
makes the unguarded division fail: the mean-speed and calorie
computations propagate the division-by-zero failure (`none` here, an
uncaught `ZeroDivisionError` in the source), with no guarding branch. -/
theorem division_by_zero_unguarded :
    (∀ t : Training, t.duration = 0 → t.get_mean_speed = none) ∧
    (∀ r : Running, r.duration = 0 → r.get_spent_calories = none) ∧
    (∀ w : SportsWalking, w.duration = 0 → w.get_spent_calories = none) ∧
    (∀ w : SportsWalking, w.height = 0 → w.get_spent_calories = none) ∧
    (∀ s : Swimming, s.duration = 0 → s.get_mean_speed = none ∧ s.get_spent_calories = none) := by
  refine ⟨?_, ?_, ?_, ?_, ?_⟩
  · intro t hd
    cases hx : t.get_distance <;> simp [Training.get_mean_speed, hx, fdiv?, hd]
  · intro r hd
    cases hx : r.toTraining.get_distance <;>
      simp [Running.get_spent_calories, Training.get_mean_speed, hx, fdiv?, hd]
  · intro w hd
    cases hx : w.toTraining.get_distance <;>
      simp [SportsWalking.get_spent_calories, Training.get_mean_speed, hx, fdiv?, hd]
  · intro w hh
    cases hx : w.toTraining.get_mean_speed <;>
      simp [SportsWalking.get_spent_calories, hx, ffloordiv?, hh]
  · intro s hd
    have hms : s.get_mean_speed = none := by
      cases hx : fdiv? (s.length_pool * s.count_pool) Training.M_IN_KM <;>
        simp [Swimming.get_mean_speed, hx, fdiv?, hd]
    exact ⟨hms, by simp [Swimming.get_spent_calories, hms]⟩

/-- Witness for C9 at zero-duration and zero-height records. -/
theorem division_by_zero_unguarded_witness :
    Training.get_mean_speed ⟨15000, 0, 75⟩ = none ∧
    Running.get_spent_calories ⟨⟨15000, 0, 75⟩⟩ = none ∧
    SportsWalking.get_spent_calories ⟨⟨9000, 0, 75⟩, 180⟩ = none ∧
    SportsWalking.get_spent_calories ⟨⟨9000, 1, 75⟩, 0⟩ = none ∧
    Swimming.get_mean_speed ⟨⟨720, 0, 80⟩, 25, 40⟩ = none ∧
    Swimming.get_spent_calories ⟨⟨720, 0, 80⟩, 25, 40⟩ = none :=
  ⟨division_by_zero_unguarded.1 ⟨15000, 0, 75⟩ rfl,
   division_by_zero_unguarded.2.1 ⟨⟨15000, 0, 75⟩⟩ rfl,
   division_by_zero_unguarded.2.2.1 ⟨⟨9000, 0, 75⟩, 180⟩ rfl,
   division_by_zero_unguarded.2.2.2.1 ⟨⟨9000, 1, 75⟩, 0⟩ rfl,
   (division_by_zero_unguarded.2.2.2.2 ⟨⟨720, 0, 80⟩, 25, 40⟩ rfl).1,
   (division_by_zero_unguarded.2.2.2.2 ⟨⟨720, 0, 80⟩, 25, 40⟩ rfl).2⟩

/-- Claim C10: for each class the report's activity-name field is the
implementing class's own name — "Running", "SportsWalking" (not
"RaceWalking"), "Swimming" — and that name is what the formatted
message displays after the template's label. -/
theorem info_name_is_class_name :
    (∀ r : Running, r.duration ≠ 0 → ∃ im : InfoMessage,
      (AnyTraining.run r).show_training_info = some im ∧
      im.training_type = "Running" ∧
      ∃ rest, im.get_message = "Тип тренировки: " ++ ("Running" ++ rest)) ∧
    (∀ w : SportsWalking, w.duration ≠ 0 → w.height ≠ 0 → ∃ im : InfoMessage,
      (AnyTraining.wlk w).show_training_info = some im ∧
      im.training_type = "SportsWalking" ∧
      ∃ rest, im.get_message = "Тип тренировки: " ++ ("SportsWalking" ++ rest)) ∧
    (∀ s : Swimming, s.duration ≠ 0 → ∃ im : InfoMessage,
      (AnyTraining.swm s).show_training_info = some im ∧
      im.training_type = "Swimming" ∧
      ∃ rest, im.get_message = "Тип тренировки: " ++ ("Swimming" ++ rest)) := by
  refine ⟨?_, ?_, ?_⟩
  · intro r hd
    have hsome : ∃ im, (AnyTraining.run r).show_training_info = some im := by
      norm_num [AnyTraining.show_training_info, AnyTraining.get_distance,
        AnyTraining.get_mean_speed, AnyTraining.get_spent_calories,
        Running.get_spent_calories, Training.get_mean_speed,
        Training.get_distance, fdiv?, Training.M_IN_KM, hd]
    obtain ⟨im, him⟩ := hsome
    have hname : im.training_type = "Running" := show_info_training_type _ _ him
    obtain ⟨rest, hrest⟩ := message_head im
    rw [hname] at hrest
    exact ⟨im, him, hname, rest, hrest⟩
  · intro w hd hh
    have hsome : ∃ im, (AnyTraining.wlk w).show_training_info = some im := by
      norm_num [AnyTraining.show_training_info, AnyTraining.get_distance,
        AnyTraining.get_mean_speed, AnyTraining.get_spent_calories,
        SportsWalking.get_spent_calories, Training.get_mean_speed,
        Training.get_distance, fdiv?, ffloordiv?, Training.M_IN_KM, hd, hh]
    obtain ⟨im, him⟩ := hsome
    have hname : im.training_type = "SportsWalking" := show_info_training_type _ _ him
    obtain ⟨rest, hrest⟩ := message_head im
    rw [hname] at hrest
    exact ⟨im, him, hname, rest, hrest⟩
  · intro s hd
    have hsome : ∃ im, (AnyTraining.swm s).show_training_info = some im := by
      norm_num [AnyTraining.show_training_info, AnyTraining.get_distance,
        AnyTraining.get_mean_speed, AnyTraining.get_spent_calories,
        Swimming.get_spent_calories, Swimming.get_mean_speed,
        Swimming.get_distance, fdiv?, Training.M_IN_KM, hd]
    obtain ⟨im, him⟩ := hsome
    have hname : im.training_type = "Swimming" := show_info_training_type _ _ him
    obtain ⟨rest, hrest⟩ := message_head im
    rw [hname] at hrest
    exact ⟨im, him, hname, rest, hrest⟩

/-- Witness for C10 at the three sample records. -/
theorem info_name_is_class_name_witness :
    (∃ im : InfoMessage, (AnyTraining.run ⟨⟨15000, 1, 75⟩⟩).show_training_info = some im ∧
      im.training_type = "Running" ∧
      ∃ rest, im.get_message = "Тип тренировки: " ++ ("Running" ++ rest)) ∧
    (∃ im : InfoMessage,
      (AnyTraining.wlk ⟨⟨9000, 1, 75⟩, 180⟩).show_training_info = some im ∧
      im.training_type = "SportsWalking" ∧
      ∃ rest, im.get_message = "Тип тренировки: " ++ ("SportsWalking" ++ rest)) ∧
    (∃ im : InfoMessage,
      (AnyTraining.swm ⟨⟨720, 1, 80⟩, 25, 40⟩).show_training_info = some im ∧
      im.training_type = "Swimming" ∧
      ∃ rest, im.get_message = "Тип тренировки: " ++ ("Swimming" ++ rest)) :=
  ⟨info_name_is_class_name.1 ⟨⟨15000, 1, 75⟩⟩ (by norm_num),
   info_name_is_class_name.2.1 ⟨⟨9000, 1, 75⟩, 180⟩ (by norm_num) (by norm_num),
   info_name_is_class_name.2.2 ⟨⟨720, 1, 80⟩, 25, 40⟩ (by norm_num)⟩
